import Mathlib

/-!
Shallow embedding of the `sla_path_model` package (config.py, geo.py,
time_utils.py, cpt_generator.py, timing_engine.py, path_enumeration.py,
demand_builder.py, feasibility.py) and proofs about the claims of its
natural-language specification.

Modelling conventions:
* Python floats are modelled as `ℚ` (exact rational arithmetic).
* A naive `datetime` is modelled as a rational number of minutes since an
  arbitrary epoch midnight; `.date()` is then `⌊dt / 1440⌋` (a day index)
  and `datetime.combine(date, t)` is `1440 * date + minutes-of t`.
* A `zoneinfo.ZoneInfo` time zone is modelled as a fixed UTC offset in
  minutes (local = UTC + offset).  No claim under study depends on DST
  transitions; all concrete inputs below use offset 0 (UTC).
* `haversine_miles` is real-valued trigonometry; it is abstracted as a
  function parameter (`hav`) wherever the source calls it, so that every
  structural statement is proved for all distance functions.
* Python dicts keyed by facility name are modelled as association lists
  (`List (String × _)`, first binding wins on lookup, as keys are unique);
  dicts that are built by repeated overwriting assignment are modelled as
  update functions (latest assignment wins).
-/

namespace SlaPathModel

/-- Python `datetime.time` with whole hours/minutes (the engine's helpers
`time_to_minutes`/`minutes_to_time` from time_utils.py only ever read and
produce hours and minutes). -/
structure PyTime where
  hour : ℕ
  minute : ℕ
deriving DecidableEq, Repr

/-- time_utils.time_to_minutes: minutes since midnight. -/
def time_to_minutes (t : PyTime) : ℤ := t.hour * 60 + t.minute

/-- time_utils.minutes_to_time: wraps at 24 hours. -/
def minutes_to_time (mins : ℤ) : PyTime :=
  let m := mins % 1440
  ⟨(m / 60).toNat, (m % 60).toNat⟩

/-- A `ZoneInfo` time zone, abstracted as a fixed UTC offset in minutes. -/
structure TZ where
  offsetMinutes : ℤ
deriving DecidableEq, Repr

/-- The UTC zone. -/
def UTC : TZ := ⟨0⟩

/-- A naive datetime: rational minutes since the epoch midnight. -/
abbrev DateTime := ℚ

/-- Python `int(q)` (truncation toward zero) on a rational. -/
def pyInt (q : ℚ) : ℤ := q.num / q.den

/-- Python `dt.date()` as a day index. -/
def dateOf (dt : DateTime) : ℤ := ⌊dt / 1440⌋

/-- Python `datetime.combine(date, t)`. -/
def combine (date : ℤ) (t : PyTime) : DateTime := 1440 * date + time_to_minutes t

/-- Python `time_to_minutes(dt.time())`: whole minutes of the time-of-day part
(seconds and fractions are dropped by `time_to_minutes`). -/
def todMinutes (dt : DateTime) : ℤ := ⌊dt⌋ - 1440 * dateOf dt

/-- time_utils.local_to_utc on a naive local datetime (local = UTC + offset). -/
def local_to_utc (localDt : DateTime) (tz : TZ) : DateTime :=
  localDt - tz.offsetMinutes

/-- time_utils.utc_to_local. -/
def utc_to_local (utcDt : DateTime) (tz : TZ) : DateTime :=
  utcDt + tz.offsetMinutes

-- =======================================================================
-- config.py: enums and dataclasses
-- =======================================================================

/-- config.FacilityType. -/
inductive FacilityType | HUB | HYBRID | LAUNCH
deriving DecidableEq, Repr

/-- config.SortLevel (declaration order REGION, MARKET, SORT_GROUP, which is
also Python's enum iteration order). -/
inductive SortLevel | REGION | MARKET | SORT_GROUP
deriving DecidableEq, Repr

/-- The list Python iterates over in `for sort_level in SortLevel`. -/
def SortLevel.all : List SortLevel := [.REGION, .MARKET, .SORT_GROUP]

/-- config.PathType. -/
inductive PathType | DIRECT | ONE_TOUCH | TWO_TOUCH | THREE_TOUCH
deriving DecidableEq, Repr

/-- config.FlowType.  The enum in config.py declares exactly the members
DIRECT_INJECTION and MIDDLE_MILE (and no ZONE_SKIP member). -/
inductive FlowType | DIRECT_INJECTION | MIDDLE_MILE
deriving DecidableEq, Repr

/-- Python attribute access `FlowType.<name>`: resolves a member by name,
`none` models the `AttributeError` raised for an undefined member. -/
def FlowType.fromName (s : String) : Option FlowType :=
  if s = "DIRECT_INJECTION" then some .DIRECT_INJECTION
  else if s = "MIDDLE_MILE" then some .MIDDLE_MILE
  else none

/-- config.StepType. -/
inductive StepType
  | INDUCTION_SORT | TRANSIT | CROSSDOCK | FULL_SORT | LAST_MILE_SORT
deriving DecidableEq, Repr

/-- config.TimingParams. -/
structure TimingParams where
  induction_sort_minutes : ℚ
  middle_mile_crossdock_minutes : ℚ
  middle_mile_sort_minutes : ℚ
  last_mile_sort_minutes : ℚ
deriving DecidableEq, Repr

/-- config.SortWindow. -/
structure SortWindow where
  start_local : PyTime
  end_local : PyTime
  timezone : TZ
deriving DecidableEq, Repr

/-- SortWindow.crosses_midnight (`end_local < start_local` compares
`datetime.time` lexicographically, i.e. by minutes since midnight). -/
def SortWindow.crosses_midnight (w : SortWindow) : Bool :=
  time_to_minutes w.end_local < time_to_minutes w.start_local

/-- config.CPT (the dataclass has no `is_active` field). -/
structure CPT where
  origin : String
  dest : String
  cpt_sequence : ℤ
  cpt_local : PyTime
  days_of_week : List String
  timezone : TZ
deriving DecidableEq, Repr

/-- config.ServiceCommitment. -/
structure ServiceCommitment where
  origin : String
  dest : String
  zone : Option ℤ
  sla_days : ℤ
  sla_buffer_days : ℚ
  priority_weight : ℚ
deriving DecidableEq, Repr

/-- config.MileageBand. -/
structure MileageBand where
  zone : ℤ
  mileage_band_min : ℚ
  mileage_band_max : ℚ
  circuity_factor : ℚ
  mph : ℚ
deriving DecidableEq, Repr

/-- config.Facility. -/
structure Facility where
  name : String
  facility_type : FacilityType
  lat : ℚ
  lon : ℚ
  timezone : TZ
  parent_hub_name : Option String
  regional_sort_hub : Option String
  is_injection_node : Bool
  mm_sort_start_local : Option PyTime
  mm_sort_end_local : Option PyTime
  lm_sort_start_local : Option PyTime
  lm_sort_end_local : Option PyTime
  outbound_window_start_local : Option PyTime
  outbound_window_end_local : Option PyTime
  outbound_cpt_count : Option ℤ
  max_inbound_trucks_per_hour : Option ℚ
  max_outbound_trucks_per_hour : Option ℚ
deriving DecidableEq, Repr

/-- Facility.get_mm_sort_window (the Python `if a and b` test is truthiness
of `Optional[time]`: present iff not `None`; `time` objects are truthy). -/
def Facility.get_mm_sort_window (f : Facility) : Option SortWindow :=
  match f.mm_sort_start_local, f.mm_sort_end_local with
  | some s, some e => some ⟨s, e, f.timezone⟩
  | _, _ => none

/-- Facility.get_lm_sort_window. -/
def Facility.get_lm_sort_window (f : Facility) : Option SortWindow :=
  match f.lm_sort_start_local, f.lm_sort_end_local with
  | some s, some e => some ⟨s, e, f.timezone⟩
  | _, _ => none

/-- config.PathCandidate (a single `sort_level` field). -/
structure PathCandidate where
  origin : String
  dest : String
  path_nodes : List String
  path_type : PathType
  sort_level : SortLevel
  total_path_miles : ℚ
  direct_miles : ℚ
  atw_factor : ℚ
deriving DecidableEq, Repr

/-- config.PathStep. -/
structure PathStep where
  step_sequence : ℤ
  step_type : StepType
  from_facility : Option String
  to_facility : Option String
  from_lat : Option ℚ
  from_lon : Option ℚ
  to_lat : Option ℚ
  to_lon : Option ℚ
  distance_miles : Option ℚ
  start_utc : DateTime
  end_utc : DateTime
  duration_minutes : ℚ
  sort_window_dwell_minutes : ℚ
  cpt_dwell_minutes : ℚ
  total_dwell_minutes : ℚ
deriving DecidableEq, Repr

/-- config.PathTimingResult.  `sla_target_hours` / `sla_slack_hours` can be
Python's `float('inf')`, modelled as `⊤ : WithTop ℚ`.  The field list is
exactly that of the dataclass: in particular there is no
`uses_only_active_arcs` field. -/
structure PathTimingResult where
  path : PathCandidate
  tit_hours : ℚ
  sort_window_dwell_hours : ℚ
  cpt_dwell_hours : ℚ
  total_dwell_hours : ℚ
  required_injection_utc : DateTime
  delivery_datetime_utc : DateTime
  sla_days : ℤ
  sla_buffer_days : ℚ
  sla_target_hours : WithTop ℚ
  sla_met : Bool
  sla_slack_hours : WithTop ℚ
  priority_weight : ℚ
  steps : List PathStep
deriving DecidableEq, Repr

/-- config.ODDemand. -/
structure ODDemand where
  scenario_id : String
  origin : String
  dest : String
  pkgs_day : ℚ
  zone : ℤ
  flow_type : FlowType
  day_type : String
deriving DecidableEq, Repr

-- =======================================================================
-- geo.py
-- =======================================================================

/-- geo.get_zone_for_distance: first band whose
`mileage_band_min <= d <= mileage_band_max` (both bounds inclusive), else
the last band when the distance exceeds its max, else `none`. -/
def get_zone_for_distance (distance_miles : ℚ) (mileage_bands : List MileageBand) :
    Option MileageBand :=
  match mileage_bands.find?
      (fun b => decide (b.mileage_band_min ≤ distance_miles ∧
                        distance_miles ≤ b.mileage_band_max)) with
  | some b => some b
  | none =>
    match mileage_bands.getLast? with
    | some lb => if lb.mileage_band_max < distance_miles then some lb else none
    | none => none

/-- geo.calculate_transit_time_minutes (`none` models the `ValueError`
raised when `mph <= 0`). -/
def calculate_transit_time_minutes (distance_miles circuity_factor mph : ℚ) :
    Option ℚ :=
  if mph ≤ 0 then none
  else some (distance_miles * circuity_factor / mph * 60)

/-- geo.calculate_atw_factor. -/
def calculate_atw_factor (total_path_miles direct_miles : ℚ) : ℚ :=
  if direct_miles ≤ 0 then 1 else total_path_miles / direct_miles

/-- geo.calculate_path_distance, with `haversine_miles` abstracted as `hav`;
`none` models the `KeyError` on a node missing from the facility map. -/
def calculate_path_distance (hav : ℚ → ℚ → ℚ → ℚ → ℚ)
    (path_nodes : List String) (facilities : List (String × Facility)) :
    Option (ℚ × List ℚ) :=
  if path_nodes.length < 2 then some (0, [])
  else do
    let legs ← (path_nodes.zip path_nodes.tail).mapM (fun (a, b) => do
      let fa ← facilities.lookup a
      let fb ← facilities.lookup b
      pure (hav fa.lat fa.lon fb.lat fb.lon))
    pure (legs.sum, legs)

-- =======================================================================
-- time_utils.py
-- =======================================================================

/-- time_utils.is_time_in_window. -/
def is_time_in_window (check_time : PyTime) (window : SortWindow) : Bool :=
  let check_mins := time_to_minutes check_time
  let start_mins := time_to_minutes window.start_local
  let end_mins := time_to_minutes window.end_local
  if window.crosses_midnight then
    check_mins ≥ start_mins || check_mins < end_mins
  else
    start_mins ≤ check_mins && check_mins < end_mins

/-- The `while start_mins < 0: start_mins += 1440; days_back += 1` loop of
align_to_window_end, in closed form: the number of iterations is the least
`k` with `start_mins + 1440 * k ≥ 0`. -/
def rollbackDays (start_mins : ℚ) : ℤ :=
  if start_mins < 0 then ⌈-start_mins / 1440⌉ else 0

/-- time_utils.align_to_window_end: backward-chain alignment.  Returns
`(processing_start_utc, dwell_minutes)`. -/
def align_to_window_end (target_utc : DateTime) (window : SortWindow)
    (processing_minutes : ℚ) : DateTime × ℚ :=
  let target_local := utc_to_local target_utc window.timezone
  let target_date := dateOf target_local
  let target_mins : ℤ := todMinutes target_local
  let start_mins : ℚ := target_mins - processing_minutes
  let days_back := rollbackDays start_mins
  let start_mins := start_mins + 1440 * days_back
  let proposed_start_time := minutes_to_time (pyInt start_mins)
  let proposed_start_local := combine (target_date - days_back) proposed_start_time
  if is_time_in_window proposed_start_time window then
    (local_to_utc proposed_start_local window.timezone, 0)
  else
    let window_end_mins := time_to_minutes window.end_local
    let window_start_mins := time_to_minutes window.start_local
    let window_duration : ℚ :=
      if window.crosses_midnight then (1440 - window_start_mins) + window_end_mins
      else window_end_mins - window_start_mins
    let processing_minutes :=
      if processing_minutes > window_duration then window_duration
      else processing_minutes
    let proposed_start_mins := time_to_minutes proposed_start_time
    let window_end_date :=
      if window.crosses_midnight then
        if proposed_start_mins < window_end_mins then target_date - days_back - 1
        else target_date - days_back
      else
        if proposed_start_mins ≥ window_end_mins then target_date - days_back
        else target_date - days_back - 1
    let actual_end_local := combine window_end_date window.end_local
    let actual_start_local := actual_end_local - processing_minutes
    let actual_end_utc := local_to_utc actual_end_local window.timezone
    let dwell_minutes := target_utc - actual_end_utc
    if dwell_minutes < 0 then
      let actual_end_local := actual_end_local - 1440
      let actual_start_local := actual_end_local - processing_minutes
      let actual_end_utc := local_to_utc actual_end_local window.timezone
      let dwell_minutes := target_utc - actual_end_utc
      (local_to_utc actual_start_local window.timezone, max 0 dwell_minutes)
    else
      (local_to_utc actual_start_local window.timezone, max 0 dwell_minutes)

-- =======================================================================
-- cpt_generator.py
-- =======================================================================

/-- CPTGenerator construction data: the facility map and the explicit
arc_cpts rows. -/
structure CPTGenerator where
  facilities : List (String × Facility)
  arc_cpts : List CPT
deriving Repr

/-- CPTGenerator._generate_facility_cpts: evenly spaced CPTs across the
facility's outbound window (with `n = 1`, one CPT at the window end). -/
def generate_facility_cpts (facility : Facility)
    (startT endT : PyTime) (cpt_count : ℤ) : List CPT :=
  let start_mins := time_to_minutes startT
  let end_mins := time_to_minutes endT
  let window_duration : ℚ :=
    if end_mins ≤ start_mins then (1440 - start_mins) + end_mins
    else end_mins - start_mins
  let cpt_times : List ℚ :=
    if cpt_count = 1 then [(end_mins : ℚ)]
    else
      let interval : ℚ := if cpt_count > 1 then window_duration / (cpt_count - 1) else 0
      (List.range cpt_count.toNat).map (fun i =>
        let cpt_mins : ℚ := start_mins + i * interval
        if cpt_mins ≥ 1440 then cpt_mins - 1440 else cpt_mins)
  cpt_times.enum.map (fun (i, cpt_mins) =>
    { origin := facility.name
      dest := "*"
      cpt_sequence := (i : ℤ) + 1
      cpt_local := minutes_to_time (pyInt cpt_mins)
      days_of_week := []
      timezone := facility.timezone })

/-- CPTGenerator._generate_default_cpts, restricted to one origin: the
`(origin, "*")` entry of the generated-CPT dict exists exactly when the
facility is HUB/HYBRID with both outbound window bounds and a cpt count
`≥ 1`. -/
def generated_cpts_for (facilities : List (String × Facility)) (origin : String) :
    Option (List CPT) := do
  let fac ← facilities.lookup origin
  if fac.facility_type = FacilityType.HUB ∨ fac.facility_type = FacilityType.HYBRID then
    match fac.outbound_window_start_local, fac.outbound_window_end_local,
          fac.outbound_cpt_count with
    | some s, some e, some n =>
      if n < 1 then none else some (generate_facility_cpts fac s e n)
    | _, _, _ => none
  else none

/-- CPTGenerator.get_cpts_for_arc: explicit CPTs for the exact arc (sorted
by sequence, Python's stable sort), else generated facility CPTs rebound to
the destination, else `[]`. -/
def get_cpts_for_arc (g : CPTGenerator) (origin dest : String) : List CPT :=
  let explicit := (g.arc_cpts.filter
      (fun c => c.origin = origin ∧ c.dest = dest)).mergeSort
      (fun a b => a.cpt_sequence ≤ b.cpt_sequence)
  if explicit ≠ [] then explicit
  else
    match generated_cpts_for g.facilities origin with
    | some facility_cpts => facility_cpts.map (fun c => { c with dest := dest })
    | none => []

-- =======================================================================
-- timing_engine.py
-- =======================================================================

/-- TimingEngine constructor state.  `mileage_bands` is the constructor
argument after `sorted(mileage_bands, key=lambda b: b.zone)`; `hav` is the
abstracted `haversine_miles`. -/
structure TimingEngine where
  facilities : List (String × Facility)
  mileage_bands : List MileageBand
  timing_params : TimingParams
  cpt_generator : CPTGenerator
  reference_date : DateTime
  hav : ℚ → ℚ → ℚ → ℚ → ℚ

/-- The `sorted(mileage_bands, key=lambda b: b.zone)` applied in
`TimingEngine.__init__` (Python's stable sort). -/
def sortBandsByZone (bands : List MileageBand) : List MileageBand :=
  bands.mergeSort (fun a b => a.zone ≤ b.zone)

/-- TimingEngine._get_delivery_deadline_utc: the destination's
`lm_sort_end_local` (default 23:59) on the reference date, in UTC. -/
def get_delivery_deadline_utc (e : TimingEngine) (dest_fac : Facility) : DateTime :=
  let deadline_local :=
    match dest_fac.lm_sort_end_local with
    | none => combine (dateOf e.reference_date) ⟨23, 59⟩
    | some t => combine (dateOf e.reference_date) t
  local_to_utc deadline_local dest_fac.timezone

/-- TimingEngine._find_latest_cpt.  Returns `(cpt_departure_utc,
dwell_minutes)`; with no CPTs for the arc it returns `(required_by_utc, 0)`
(no flag of any kind is produced).  The `origin_fac` argument is used in
the source only for a warning log message. -/
def find_latest_cpt (e : TimingEngine) (required_by_utc : DateTime)
    (cpts : List CPT) (_origin_fac : Facility) : DateTime × ℚ :=
  if cpts = [] then (required_by_utc, 0)
  else
    let cpt_datetimes := cpts.flatMap (fun cpt =>
      ([0, -1, -2] : List ℤ).map (fun day_offset =>
        local_to_utc (combine (dateOf e.reference_date + day_offset) cpt.cpt_local)
          cpt.timezone))
    let valid_cpts := cpt_datetimes.filter (fun c => c ≤ required_by_utc)
    match valid_cpts.max? with
    | some latest_cpt =>
      (latest_cpt, max 0 (required_by_utc - latest_cpt))
    | none =>
      -- `for day_offset in [-3, -4, -5]: for cpt in cpts: if cpt_utc <= required: return`
      match (([-3, -4, -5] : List ℤ).flatMap (fun off => cpts.map (fun c => (off, c)))).find?
          (fun p =>
            local_to_utc (combine (dateOf e.reference_date + p.1) p.2.cpt_local)
              p.2.timezone ≤ required_by_utc) with
      | some p =>
        let cpt_utc :=
          local_to_utc (combine (dateOf e.reference_date + p.1) p.2.cpt_local) p.2.timezone
        (cpt_utc, max 0 (required_by_utc - cpt_utc))
      | none => (required_by_utc, 0)

/-- TimingEngine._calculate_intermediate_processing: CROSSDOCK with
`middle_mile_crossdock_minutes` when the path sort level is REGION, else
FULL_SORT with `middle_mile_sort_minutes`; backward-aligned to the
facility's middle-mile window.  The source's return type is
`Optional[PathStep]` but every code path returns a step. -/
def calculate_intermediate_processing (e : TimingEngine) (facility : Facility)
    (sort_level : SortLevel) (must_complete_by_utc : DateTime) : Option PathStep :=
  let pm_st : ℚ × StepType :=
    if sort_level = SortLevel.REGION then
      (e.timing_params.middle_mile_crossdock_minutes, StepType.CROSSDOCK)
    else
      (e.timing_params.middle_mile_sort_minutes, StepType.FULL_SORT)
  let processing_minutes := pm_st.1
  let aligned : DateTime × ℚ :=
    match facility.get_mm_sort_window with
    | some mm_window => align_to_window_end must_complete_by_utc mm_window processing_minutes
    | none => (must_complete_by_utc - processing_minutes, 0)
  some
    { step_sequence := 0
      step_type := pm_st.2
      from_facility := some facility.name
      to_facility := some facility.name
      from_lat := some facility.lat
      from_lon := some facility.lon
      to_lat := some facility.lat
      to_lon := some facility.lon
      distance_miles := some 0
      start_utc := aligned.1
      end_utc := must_complete_by_utc
      duration_minutes := processing_minutes
      sort_window_dwell_minutes := aligned.2
      cpt_dwell_minutes := 0
      total_dwell_minutes := aligned.2 }

/-- Mutable state of the backward-chaining loop in calculate_path_timing:
current time, appended steps, and the two dwell accumulators. -/
structure ChainState where
  current : DateTime
  steps : List PathStep
  swd : ℚ
  cpd : ℚ
deriving DecidableEq, Repr

/-- The `for i in range(len(path.path_nodes) - 1, 0, -1)` loop of
calculate_path_timing, processing the list of path edges in reverse order
(the argument is `edges.reverse`); `rest ≠ []` is `i > 1`, i.e. the edge's
`from` node is not the origin. -/
def backwardLoop (e : TimingEngine) (sort_level : SortLevel) :
    List (String × String) → ChainState → Option ChainState
  | [], st => some st
  | (from_node, to_node) :: rest, st => do
    let from_fac ← e.facilities.lookup from_node
    let to_fac ← e.facilities.lookup to_node
    let distance := e.hav from_fac.lat from_fac.lon to_fac.lat to_fac.lon
    let band := get_zone_for_distance distance e.mileage_bands
    let transit_minutes ←
      match band with
      | some b => calculate_transit_time_minutes distance b.circuity_factor b.mph
      | none => some (distance / 50 * 60)  -- 50 mph default
    let required_departure_utc := st.current - transit_minutes
    let cpts := get_cpts_for_arc e.cpt_generator from_node to_node
    let dep := find_latest_cpt e required_departure_utc cpts from_fac
    let cpt_departure_utc := dep.1
    let cpt_dwell := dep.2
    let arrival_utc := cpt_departure_utc + transit_minutes
    let transit_step : PathStep :=
      { step_sequence := st.steps.length + 1
        step_type := StepType.TRANSIT
        from_facility := some from_node
        to_facility := some to_node
        from_lat := some from_fac.lat
        from_lon := some from_fac.lon
        to_lat := some to_fac.lat
        to_lon := some to_fac.lon
        distance_miles := some distance
        start_utc := cpt_departure_utc
        end_utc := arrival_utc
        duration_minutes := transit_minutes
        sort_window_dwell_minutes := 0
        cpt_dwell_minutes := cpt_dwell
        total_dwell_minutes := cpt_dwell }
    let st := { st with steps := st.steps ++ [transit_step], cpd := st.cpd + cpt_dwell }
    if rest ≠ [] then
      match calculate_intermediate_processing e from_fac sort_level cpt_departure_utc with
      | some processing_step =>
        backwardLoop e sort_level rest
          { st with
            steps := st.steps ++ [processing_step]
            swd := st.swd + processing_step.sort_window_dwell_minutes
            current := processing_step.start_utc }
      | none =>
        backwardLoop e sort_level rest { st with current := cpt_departure_utc }
    else
      backwardLoop e sort_level rest { st with current := cpt_departure_utc }

/-- TimingEngine.calculate_path_timing: backward-chains from the delivery
deadline at the destination to the required injection time at the origin.
`none` models an exception (unknown facility, non-positive mph), which the
batch driver catches per path.  (The source also computes
`arc_cpts = get_cpts_for_path(...)` first but never uses it; the loop calls
`get_cpts_for_arc` afresh per edge.) -/
def calculate_path_timing (e : TimingEngine) (path : PathCandidate) :
    Option PathTimingResult := do
  let dest_fac ← e.facilities.lookup path.dest
  let delivery_deadline_utc := get_delivery_deadline_utc e dest_fac
  let st0 : ChainState := ⟨delivery_deadline_utc, [], 0, 0⟩
  -- Step 1: last-mile sort at destination
  let st1 : ChainState :=
    if dest_fac.facility_type = FacilityType.LAUNCH ∨
       dest_fac.facility_type = FacilityType.HYBRID then
      match dest_fac.get_lm_sort_window with
      | some lm_sort_window =>
        let aligned := align_to_window_end delivery_deadline_utc lm_sort_window
          e.timing_params.last_mile_sort_minutes
        let step : PathStep :=
          { step_sequence := 1
            step_type := StepType.LAST_MILE_SORT
            from_facility := some path.dest
            to_facility := some path.dest
            from_lat := some dest_fac.lat
            from_lon := some dest_fac.lon
            to_lat := some dest_fac.lat
            to_lon := some dest_fac.lon
            distance_miles := some 0
            start_utc := aligned.1
            end_utc := delivery_deadline_utc
            duration_minutes := e.timing_params.last_mile_sort_minutes
            sort_window_dwell_minutes := aligned.2
            cpt_dwell_minutes := 0
            total_dwell_minutes := aligned.2 }
        ⟨aligned.1, [step], aligned.2, 0⟩
      | none => st0
    else st0
  -- Backward loop over the path's edges
  let edges := path.path_nodes.zip path.path_nodes.tail
  let st2 ← backwardLoop e path.sort_level edges.reverse st1
  -- Induction sort at origin
  let origin_fac ← e.facilities.lookup path.origin
  let ind : DateTime × ℚ :=
    match origin_fac.get_mm_sort_window with
    | some mm_window =>
      align_to_window_end st2.current mm_window e.timing_params.induction_sort_minutes
    | none => (st2.current - e.timing_params.induction_sort_minutes, 0)
  let induction_start_utc := ind.1
  let induction_step : PathStep :=
    { step_sequence := st2.steps.length + 1
      step_type := StepType.INDUCTION_SORT
      from_facility := some path.origin
      to_facility := some path.origin
      from_lat := some origin_fac.lat
      from_lon := some origin_fac.lon
      to_lat := some origin_fac.lat
      to_lon := some origin_fac.lon
      distance_miles := some 0
      start_utc := induction_start_utc
      end_utc := st2.current
      duration_minutes := e.timing_params.induction_sort_minutes
      sort_window_dwell_minutes := ind.2
      cpt_dwell_minutes := 0
      total_dwell_minutes := ind.2 }
  let total_sort_window_dwell := st2.swd + ind.2
  -- Reverse to chronological order and renumber
  let steps := (st2.steps ++ [induction_step]).reverse
  let steps := steps.enum.map (fun p => { p.2 with step_sequence := (p.1 : ℤ) + 1 })
  let required_injection_utc := induction_start_utc
  let tit_hours := (delivery_deadline_utc - required_injection_utc) * 60 / 3600
  pure
    { path := path
      tit_hours := tit_hours
      sort_window_dwell_hours := total_sort_window_dwell / 60
      cpt_dwell_hours := st2.cpd / 60
      total_dwell_hours := (total_sort_window_dwell + st2.cpd) / 60
      required_injection_utc := required_injection_utc
      delivery_datetime_utc := delivery_deadline_utc
      sla_days := 0
      sla_buffer_days := 0
      sla_target_hours := (0 : ℚ)
      sla_met := false
      sla_slack_hours := (0 : ℚ)
      priority_weight := 1
      steps := steps }

-- =======================================================================
-- path_enumeration.py
-- =======================================================================

/-- PathEnumerator constructor state (`hav` abstracts `haversine_miles`). -/
structure PathEnumerator where
  facilities : List (String × Facility)
  max_path_touches : ℤ
  max_atw_factor : ℚ
  hav : ℚ → ℚ → ℚ → ℚ → ℚ

/-- The iteration order of `self.sorting_facilities = {**hubs, **hybrids}`:
all HUB names in facility order, then all HYBRID names in facility order. -/
def sortingNames (facilities : List (String × Facility)) : List String :=
  (facilities.filter (fun p => p.2.facility_type = FacilityType.HUB)).map (·.1) ++
  (facilities.filter (fun p => p.2.facility_type = FacilityType.HYBRID)).map (·.1)

/-- The `self.parent_hub` dict: maps a facility name to its
`parent_hub_name` when that is truthy (neither `None` nor `""`). -/
def parentHubMap (facilities : List (String × Facility)) (name : String) :
    Option String :=
  (facilities.lookup name).bind (fun f =>
    match f.parent_hub_name with
    | some p => if p = "" then none else some p
    | none => none)

/-- The `self.facility_to_regional_hub` dict of DemandBuilder (same truthy
filter as `parentHubMap`). -/
def facilityToRegionalHub (facilities : List (String × Facility)) (name : String) :
    Option String :=
  (facilities.lookup name).bind (fun f =>
    match f.regional_sort_hub with
    | some h => if h = "" then none else some h
    | none => none)

/-- PathEnumerator._is_valid_path_structure.  A lookup miss is modelled as
`false`; in the source a missing facility raises `KeyError`, but within
`enumerate_paths_for_od` origin/dest are pre-checked and intermediates are
drawn from the facility map, so that branch is unreachable there. -/
def is_valid_path_structure (facilities : List (String × Facility))
    (path : List String) : Bool :=
  if path.length < 2 then false
  else
    match path.head?, path.getLast? with
    | some origin, some dest =>
      match facilities.lookup origin, facilities.lookup dest with
      | some origin_fac, some dest_fac =>
        if ¬(origin_fac.facility_type = FacilityType.HUB ∨
             origin_fac.facility_type = FacilityType.HYBRID) then false
        else if ¬(dest_fac.facility_type = FacilityType.LAUNCH ∨
                  dest_fac.facility_type = FacilityType.HYBRID) then false
        else if ¬((path.drop 1).dropLast.all (fun node =>
            match facilities.lookup node with
            | some f => decide (f.facility_type = FacilityType.HUB ∨
                                f.facility_type = FacilityType.HYBRID)
            | none => false)) then false
        else
          match parentHubMap facilities dest with
          | some parent =>
            if origin ≠ parent ∧ parentHubMap facilities origin ≠ some parent then
              decide (parent ∈ path)
            else true
          | none => true
      | _, _ => false
    | _, _ => false

/-- PathEnumerator._enumerate_raw_paths: the direct path is appended
unconditionally (`# Direct path (always valid)`), with no
`_is_valid_path_structure` check; 1/2/3-touch sequences over the sorting
facilities are filtered by `_is_valid_path_structure`. -/
def enumerate_raw_paths (pe : PathEnumerator) (origin dest : String) :
    List (List String) :=
  let sorting := sortingNames pe.facilities
  let direct := [[origin, dest]]
  let one_touch :=
    if pe.max_path_touches ≥ 2 then
      ((sorting.filter (fun h => h ≠ origin ∧ h ≠ dest)).map
        (fun h => [origin, h, dest])).filter (is_valid_path_structure pe.facilities)
    else []
  let two_touch :=
    if pe.max_path_touches ≥ 3 then
      ((sorting.filter (fun h1 => h1 ≠ origin ∧ h1 ≠ dest)).flatMap (fun h1 =>
        (sorting.filter (fun h2 => h2 ≠ origin ∧ h2 ≠ dest ∧ h2 ≠ h1)).map
          (fun h2 => [origin, h1, h2, dest]))).filter
        (is_valid_path_structure pe.facilities)
    else []
  let three_touch :=
    if pe.max_path_touches ≥ 4 then
      ((sorting.filter (fun h1 => h1 ≠ origin ∧ h1 ≠ dest)).flatMap (fun h1 =>
        (sorting.filter (fun h2 => h2 ≠ origin ∧ h2 ≠ dest ∧ h2 ≠ h1)).flatMap (fun h2 =>
          (sorting.filter (fun h3 => h3 ≠ origin ∧ h3 ≠ dest ∧ h3 ≠ h1 ∧ h3 ≠ h2)).map
            (fun h3 => [origin, h1, h2, h3, dest])))).filter
        (is_valid_path_structure pe.facilities)
    else []
  direct ++ one_touch ++ two_touch ++ three_touch

/-- PathEnumerator._is_sort_level_valid: "All sort levels valid for all
paths in v1" — the source returns `True` unconditionally. -/
def is_sort_level_valid (_path_nodes : List String) (_sort_level : SortLevel) : Bool :=
  true

/-- PathEnumerator._expand_path_to_candidates: one candidate per sort level
passing `_is_sort_level_valid` (iterating `for sort_level in SortLevel`). -/
def expand_path_to_candidates (pe : PathEnumerator) (path_nodes : List String)
    (origin dest : String) (direct_miles : ℚ) : Option (List PathCandidate) := do
  let td ← calculate_path_distance pe.hav path_nodes pe.facilities
  let total_miles := td.1
  let atw_factor := calculate_atw_factor total_miles direct_miles
  let num_touches := path_nodes.length - 1
  let path_type :=
    if num_touches = 1 then PathType.DIRECT
    else if num_touches = 2 then PathType.ONE_TOUCH
    else if num_touches = 3 then PathType.TWO_TOUCH
    else PathType.THREE_TOUCH  -- `.get(num_touches, PathType.THREE_TOUCH)`
  pure (SortLevel.all.filterMap (fun sort_level =>
    if is_sort_level_valid path_nodes sort_level then
      some
        { origin := origin
          dest := dest
          path_nodes := path_nodes
          path_type := path_type
          sort_level := sort_level
          total_path_miles := total_miles
          direct_miles := direct_miles
          atw_factor := atw_factor }
    else none))

/-- PathEnumerator.enumerate_paths_for_od.  `none` models the `ValueError`
raised for an unknown origin/destination. -/
def enumerate_paths_for_od (pe : PathEnumerator) (origin dest : String) :
    Option (List PathCandidate) := do
  let origin_fac ← pe.facilities.lookup origin
  let dest_fac ← pe.facilities.lookup dest
  let direct_miles := pe.hav origin_fac.lat origin_fac.lon dest_fac.lat dest_fac.lon
  let raw_paths := enumerate_raw_paths pe origin dest
  let expanded ← raw_paths.mapM
    (fun pn => expand_path_to_candidates pe pn origin dest direct_miles)
  let candidates := expanded.flatten
  pure (candidates.filter (fun c => c.atw_factor ≤ pe.max_atw_factor))

-- =======================================================================
-- feasibility.py
-- =======================================================================

/-- The five lookup dicts built by
FeasibilityChecker._build_commitment_index, each modelled as an update
function (assignment with the latest write winning). -/
structure CommitmentIndex where
  od_commitments : String × String → Option ServiceCommitment
  origin_commitments : String → Option ServiceCommitment
  dest_commitments : String → Option ServiceCommitment
  zone_commitments : ℤ → Option ServiceCommitment
  default_commitment : Option ServiceCommitment

/-- The empty index the constructor starts from. -/
def emptyIndex : CommitmentIndex :=
  ⟨fun _ => none, fun _ => none, fun _ => none, fun _ => none, none⟩

/-- One iteration of the `for sc in self.service_commitments` loop of
_build_commitment_index: classify `sc` into its bucket and assign. -/
def indexInsert (idx : CommitmentIndex) (sc : ServiceCommitment) : CommitmentIndex :=
  if sc.origin ≠ "*" ∧ sc.dest ≠ "*" then
    { idx with od_commitments :=
        fun k => if k = (sc.origin, sc.dest) then some sc else idx.od_commitments k }
  else if sc.origin ≠ "*" ∧ sc.dest = "*" then
    { idx with origin_commitments :=
        fun k => if k = sc.origin then some sc else idx.origin_commitments k }
  else if sc.origin = "*" ∧ sc.dest ≠ "*" then
    { idx with dest_commitments :=
        fun k => if k = sc.dest then some sc else idx.dest_commitments k }
  else
    match sc.zone with
    | some z =>
      { idx with zone_commitments :=
          fun k => if k = z then some sc else idx.zone_commitments k }
    | none => { idx with default_commitment := some sc }

/-- FeasibilityChecker._build_commitment_index. -/
def build_commitment_index (scs : List ServiceCommitment) : CommitmentIndex :=
  scs.foldl indexInsert emptyIndex

/-- FeasibilityChecker.get_commitment: OD pair, then origin-specific, then
dest-specific, then zone, then default. -/
def get_commitment (idx : CommitmentIndex) (origin dest : String) (zone : ℤ) :
    Option ServiceCommitment :=
  match idx.od_commitments (origin, dest) with
  | some sc => some sc
  | none =>
    match idx.origin_commitments origin with
    | some sc => some sc
    | none =>
      match idx.dest_commitments dest with
      | some sc => some sc
      | none =>
        match idx.zone_commitments zone with
        | some sc => some sc
        | none => idx.default_commitment

/-- FeasibilityChecker.check_feasibility, as the pure function from the
input timing to the updated timing (the source mutates the SLA fields of
`timing` in place and returns it). -/
def check_feasibility (idx : CommitmentIndex) (timing : PathTimingResult)
    (zone : ℤ) : PathTimingResult :=
  match get_commitment idx timing.path.origin timing.path.dest zone with
  | none =>
    { timing with
      sla_days := 0
      sla_buffer_days := 0
      sla_target_hours := ⊤  -- float('inf')
      sla_met := true
      sla_slack_hours := ⊤
      priority_weight := 1 }
  | some commitment =>
    let sla_target_hours : ℚ := (commitment.sla_days + commitment.sla_buffer_days) * 24
    { timing with
      sla_days := commitment.sla_days
      sla_buffer_days := commitment.sla_buffer_days
      sla_target_hours := (sla_target_hours : WithTop ℚ)
      sla_met := decide (timing.tit_hours ≤ sla_target_hours)
      sla_slack_hours := ((sla_target_hours - timing.tit_hours : ℚ) : WithTop ℚ)
      priority_weight := commitment.priority_weight }

/-- Last element of `scs` satisfying `p` (a dict built by repeated
assignment holds, at each key, the last commitment written to it). -/
def findLastMatch (p : ServiceCommitment → Bool) (scs : List ServiceCommitment) :
    Option ServiceCommitment :=
  scs.reverse.find? p

/-- Spec-side bucket predicate: an exact-OD commitment applying to `(o, d)`. -/
def odMatch (o d : String) (sc : ServiceCommitment) : Bool :=
  sc.origin ≠ "*" && sc.dest ≠ "*" && sc.origin = o && sc.dest = d

/-- Spec-side bucket predicate: an origin-only commitment applying to `o`. -/
def originMatch (o : String) (sc : ServiceCommitment) : Bool :=
  sc.origin ≠ "*" && sc.dest = "*" && sc.origin = o

/-- Spec-side bucket predicate: a dest-only commitment applying to `d`. -/
def destMatch (d : String) (sc : ServiceCommitment) : Bool :=
  sc.origin = "*" && sc.dest ≠ "*" && sc.dest = d

/-- Spec-side bucket predicate: a zone commitment applying to `z`. -/
def zoneMatch (z : ℤ) (sc : ServiceCommitment) : Bool :=
  sc.origin = "*" && sc.dest = "*" && sc.zone = some z

/-- Spec-side bucket predicate: the all-wildcard default commitment. -/
def defaultMatch (sc : ServiceCommitment) : Bool :=
  sc.origin = "*" && sc.dest = "*" && sc.zone = none

/-- Modelled from the spec's words ("Lookup priority: OD → origin → dest →
zone → default"): scan the commitment list directly, bucket by bucket in
priority order, taking in each bucket the latest matching row. -/
def get_commitment_spec (scs : List ServiceCommitment) (origin dest : String)
    (zone : ℤ) : Option ServiceCommitment :=
  match findLastMatch (odMatch origin dest) scs with
  | some sc => some sc
  | none =>
    match findLastMatch (originMatch origin) scs with
    | some sc => some sc
    | none =>
      match findLastMatch (destMatch dest) scs with
      | some sc => some sc
      | none =>
        match findLastMatch (zoneMatch zone) scs with
        | some sc => some sc
        | none => findLastMatch defaultMatch scs

-- =======================================================================
-- demand_builder.py
-- =======================================================================

/-- A row of the `demand` input table. -/
structure DemandRow where
  year : ℤ
  annual_pkgs : ℚ
  peak_pct_of_annual : ℚ
  offpeak_pct_of_annual : ℚ
  middle_mile_share_peak : ℚ
  zone_skip_share_peak : ℚ
  direct_injection_share_peak : ℚ
  middle_mile_share_offpeak : ℚ
  zone_skip_share_offpeak : ℚ
  direct_injection_share_offpeak : ℚ
deriving DecidableEq, Repr

/-- The dict returned by DemandBuilder._get_demand_params. -/
structure DemandParams where
  daily_pkgs : ℚ
  mm_share : ℚ
  zs_share : ℚ
  di_share : ℚ
deriving DecidableEq, Repr

/-- DemandBuilder._get_demand_params: select the year's first row and the
day-type share columns, validate `|mm + zs + di − 1| ≤ 0.01`, and return
`daily = annual_pkgs × pct_of_annual`.  `.error` models the raised
`ValueError`s. -/
def get_demand_params (demand_df : List DemandRow) (year : ℤ) (day_type : String) :
    Except String DemandParams :=
  match (demand_df.filter (fun r => r.year = year)).head? with
  | none => .error "No demand data for year"
  | some row =>
    let sel : ℚ × ℚ × ℚ × ℚ :=
      if day_type = "peak" then
        (row.peak_pct_of_annual, row.middle_mile_share_peak,
         row.zone_skip_share_peak, row.direct_injection_share_peak)
      else
        (row.offpeak_pct_of_annual, row.middle_mile_share_offpeak,
         row.zone_skip_share_offpeak, row.direct_injection_share_offpeak)
    let pct_of_annual := sel.1
    let mm_share := sel.2.1
    let zs_share := sel.2.2.1
    let di_share := sel.2.2.2
    let total_share := mm_share + zs_share + di_share
    if |total_share - 1| > 1/100 then .error "Flow shares must sum to 1.0"
    else .ok ⟨row.annual_pkgs * pct_of_annual, mm_share, zs_share, di_share⟩

/-- Python attribute access `FlowType.<name>` in an `Except` computation:
an undefined member raises `AttributeError`. -/
def pyFlowType (s : String) : Except String FlowType :=
  match FlowType.fromName s with
  | some ft => .ok ft
  | none => .error ("AttributeError: type object FlowType has no attribute " ++ s)

/-- DemandBuilder._calculate_zone (with the `hav` abstraction); `none`
models `KeyError` on an unknown facility, unreachable from
`_build_od_matrix` where both lookups are guarded. -/
def calculate_zone (facilities : List (String × Facility))
    (hav : ℚ → ℚ → ℚ → ℚ → ℚ) (mileage_bands : List MileageBand)
    (origin dest : String) : Option ℤ := do
  let origin_fac ← facilities.lookup origin
  let dest_fac ← facilities.lookup dest
  let distance := hav origin_fac.lat origin_fac.lon dest_fac.lat dest_fac.lon
  match get_zone_for_distance distance mileage_bands with
  | some band => pure band.zone
  | none =>
    match mileage_bands.getLast? with
    | some b => pure b.zone
    | none => pure (-1)

/-- DemandBuilder._build_od_matrix: the three flow families in source
order (DIRECT_INJECTION, ZONE_SKIP, MIDDLE_MILE).  Every
`ODDemand(... flow_type=FlowType.X ...)` construction resolves the enum
member `X` by name (`pyFlowType`), exactly as Python attribute access
does; `.error` models the exception propagating out of the method. -/
def build_od_matrix (facilities : List (String × Facility))
    (hav : ℚ → ℚ → ℚ → ℚ → ℚ) (mileage_bands : List MileageBand)
    (dest_shares injection_shares : List (String × ℚ))
    (scenario_id : String) (params : DemandParams) (day_type : String) :
    Except String (List ODDemand) := do
  let daily_pkgs := params.daily_pkgs
  -- 1. DIRECT INJECTION: O=D at facility_name_assigned (zone 0)
  let di_daily := daily_pkgs * params.di_share
  let di_demands ←
    if di_daily > 0 then
      dest_shares.foldlM (fun acc p => do
        let dest := p.1
        let di_pkgs := di_daily * p.2
        if di_pkgs < 1/100 then pure acc
        else if (facilities.lookup dest).isNone then pure acc
        else do
          let ft ← pyFlowType "DIRECT_INJECTION"
          pure (acc ++ [ODDemand.mk scenario_id dest dest di_pkgs 0 ft day_type])) []
    else pure []
  -- 2. ZONE SKIP: origin = regional_sort_hub of dest
  let zs_daily := daily_pkgs * params.zs_share
  let zs_demands ←
    if zs_daily > 0 then
      dest_shares.foldlM (fun acc p => do
        let dest := p.1
        if (facilities.lookup dest).isNone then pure acc
        else
          match facilityToRegionalHub facilities dest with
          | none => pure acc
          | some regional_hub =>
            if (facilities.lookup regional_hub).isNone then pure acc
            else
              let zs_pkgs := zs_daily * p.2
              if zs_pkgs < 1/100 then pure acc
              else
                match calculate_zone facilities hav mileage_bands regional_hub dest with
                | none => .error "KeyError"
                | some zone => do
                  let ft ← pyFlowType "ZONE_SKIP"
                  pure (acc ++
                    [ODDemand.mk scenario_id regional_hub dest zs_pkgs zone ft day_type])) []
    else pure []
  -- 3. MIDDLE MILE: origin per injection_distribution, dest per population
  let mm_daily := daily_pkgs * params.mm_share
  let mm_demands ←
    if mm_daily > 0 then
      injection_shares.foldlM (fun acc q => do
        let origin := q.1
        if q.2 < (1/10000 : ℚ) then pure acc
        else
          match facilities.lookup origin with
          | none => pure acc
          | some origin_fac =>
            let origin_mm := mm_daily * q.2
            dest_shares.foldlM (fun acc2 p => do
              let dest := p.1
              let od_pkgs := origin_mm * p.2
              if od_pkgs < 1/100 then pure acc2
              else if (facilities.lookup dest).isNone then pure acc2
              else if origin = dest ∧ origin_fac.facility_type ≠ FacilityType.HYBRID then
                pure acc2
              else
                match calculate_zone facilities hav mileage_bands origin dest with
                | none => .error "KeyError"
                | some zone => do
                  let ft ← pyFlowType "MIDDLE_MILE"
                  pure (acc2 ++
                    [ODDemand.mk scenario_id origin dest od_pkgs zone ft day_type])) acc) []
    else pure []
  pure (di_demands ++ zs_demands ++ mm_demands)

-- =======================================================================
-- Helper lemmas
-- =======================================================================

lemma findLastMatch_cons (p : ServiceCommitment → Bool) (sc : ServiceCommitment)
    (rest : List ServiceCommitment) :
    findLastMatch p (sc :: rest) =
      match findLastMatch p rest with
      | some x => some x
      | none => if p sc then some sc else none := by
  unfold findLastMatch
  rw [List.reverse_cons, List.find?_append]
  cases h : rest.reverse.find? p <;> simp [Option.orElse, List.find?]
  cases hp : p sc <;> simp

lemma indexInsert_od (idx : CommitmentIndex) (sc : ServiceCommitment)
    (o d : String) :
    (indexInsert idx sc).od_commitments (o, d) =
      if odMatch o d sc then some sc else idx.od_commitments (o, d) := by
  by_cases hA : sc.origin = "*" <;> by_cases hB : sc.dest = "*" <;>
    by_cases hC : o = sc.origin <;> by_cases hD : d = sc.dest <;>
      simp [indexInsert, odMatch, hA, hB, hC, hD, Prod.mk.injEq] <;>
        first
          | (cases sc.zone <;> simp)
          | (split_ifs <;> first | rfl | simp_all)

lemma indexInsert_origin (idx : CommitmentIndex) (sc : ServiceCommitment)
    (o : String) :
    (indexInsert idx sc).origin_commitments o =
      if originMatch o sc then some sc else idx.origin_commitments o := by
  by_cases hA : sc.origin = "*" <;> by_cases hB : sc.dest = "*" <;>
    by_cases hC : o = sc.origin <;>
      simp [indexInsert, originMatch, hA, hB, hC] <;>
        first
          | (cases sc.zone <;> simp)
          | (split_ifs <;> first | rfl | simp_all)

lemma indexInsert_dest (idx : CommitmentIndex) (sc : ServiceCommitment)
    (d : String) :
    (indexInsert idx sc).dest_commitments d =
      if destMatch d sc then some sc else idx.dest_commitments d := by
  by_cases hA : sc.origin = "*" <;> by_cases hB : sc.dest = "*" <;>
    by_cases hD : d = sc.dest <;>
      simp [indexInsert, destMatch, hA, hB, hD] <;>
        first
          | (cases sc.zone <;> simp)
          | (split_ifs <;> first | rfl | simp_all)

lemma indexInsert_zone (idx : CommitmentIndex) (sc : ServiceCommitment)
    (z : ℤ) :
    (indexInsert idx sc).zone_commitments z =
      if zoneMatch z sc then some sc else idx.zone_commitments z := by
  by_cases hA : sc.origin = "*" <;> by_cases hB : sc.dest = "*" <;>
    cases hz : sc.zone <;>
      (simp [indexInsert, zoneMatch, hA, hB, hz] <;>
        first
          | rfl
          | (split_ifs <;> first | rfl | simp_all))

lemma indexInsert_default (idx : CommitmentIndex) (sc : ServiceCommitment) :
    (indexInsert idx sc).default_commitment =
      if defaultMatch sc then some sc else idx.default_commitment := by
  by_cases hA : sc.origin = "*" <;> by_cases hB : sc.dest = "*" <;>
    cases hz : sc.zone <;>
      simp [indexInsert, defaultMatch, hA, hB, hz]

lemma od_bucket_foldl (scs : List ServiceCommitment) (idx0 : CommitmentIndex)
    (o d : String) :
    (scs.foldl indexInsert idx0).od_commitments (o, d) =
      match findLastMatch (odMatch o d) scs with
      | some sc => some sc
      | none => idx0.od_commitments (o, d) := by
  induction scs generalizing idx0 with
  | nil => rfl
  | cons sc rest ih =>
    rw [List.foldl_cons, ih, findLastMatch_cons]
    cases h : findLastMatch (odMatch o d) rest with
    | some x => simp
    | none =>
      have hins := indexInsert_od idx0 sc o d
      cases hm : odMatch o d sc <;> simp_all

lemma origin_bucket_foldl (scs : List ServiceCommitment) (idx0 : CommitmentIndex)
    (o : String) :
    (scs.foldl indexInsert idx0).origin_commitments o =
      match findLastMatch (originMatch o) scs with
      | some sc => some sc
      | none => idx0.origin_commitments o := by
  induction scs generalizing idx0 with
  | nil => rfl
  | cons sc rest ih =>
    rw [List.foldl_cons, ih, findLastMatch_cons]
    cases h : findLastMatch (originMatch o) rest with
    | some x => simp
    | none =>
      have hins := indexInsert_origin idx0 sc o
      cases hm : originMatch o sc <;> simp_all

lemma dest_bucket_foldl (scs : List ServiceCommitment) (idx0 : CommitmentIndex)
    (d : String) :
    (scs.foldl indexInsert idx0).dest_commitments d =
      match findLastMatch (destMatch d) scs with
      | some sc => some sc
      | none => idx0.dest_commitments d := by
  induction scs generalizing idx0 with
  | nil => rfl
  | cons sc rest ih =>
    rw [List.foldl_cons, ih, findLastMatch_cons]
    cases h : findLastMatch (destMatch d) rest with
    | some x => simp
    | none =>
      have hins := indexInsert_dest idx0 sc d
      cases hm : destMatch d sc <;> simp_all

lemma zone_bucket_foldl (scs : List ServiceCommitment) (idx0 : CommitmentIndex)
    (z : ℤ) :
    (scs.foldl indexInsert idx0).zone_commitments z =
      match findLastMatch (zoneMatch z) scs with
      | some sc => some sc
      | none => idx0.zone_commitments z := by
  induction scs generalizing idx0 with
  | nil => rfl
  | cons sc rest ih =>
    rw [List.foldl_cons, ih, findLastMatch_cons]
    cases h : findLastMatch (zoneMatch z) rest with
    | some x => simp
    | none =>
      have hins := indexInsert_zone idx0 sc z
      cases hm : zoneMatch z sc <;> simp_all

lemma default_bucket_foldl (scs : List ServiceCommitment) (idx0 : CommitmentIndex) :
    (scs.foldl indexInsert idx0).default_commitment =
      match findLastMatch defaultMatch scs with
      | some sc => some sc
      | none => idx0.default_commitment := by
  induction scs generalizing idx0 with
  | nil => rfl
  | cons sc rest ih =>
    rw [List.foldl_cons, ih, findLastMatch_cons]
    cases h : findLastMatch defaultMatch rest with
    | some x => simp
    | none =>
      have hins := indexInsert_default idx0 sc
      cases hm : defaultMatch sc <;> simp_all

-- =======================================================================
-- Claim theorems
-- =======================================================================

/-- C8: for every (origin, dest, zone) triple, `FeasibilityChecker`
selects the service commitment by checking buckets in the fixed order
exact-OD, origin-only, dest-only, zone, default (proved by refinement:
the index-based `get_commitment` coincides with a direct priority-ordered
scan of the commitment list), and when no bucket matches the annotation
does not fail but sets `sla_target_hours = +∞` (⊤) and `sla_met = true`. -/
theorem C8_commitment_lookup_priority_and_unconstrained_pass :
    (∀ (scs : List ServiceCommitment) (origin dest : String) (zone : ℤ),
      get_commitment (build_commitment_index scs) origin dest zone =
        get_commitment_spec scs origin dest zone) ∧
    (∀ (idx : CommitmentIndex) (timing : PathTimingResult) (zone : ℤ),
      get_commitment idx timing.path.origin timing.path.dest zone = none →
        (check_feasibility idx timing zone).sla_target_hours = ⊤ ∧
        (check_feasibility idx timing zone).sla_met = true ∧
        (check_feasibility idx timing zone).sla_slack_hours = ⊤) := by
  constructor
  · intro scs origin dest zone
    unfold get_commitment get_commitment_spec build_commitment_index
    rw [od_bucket_foldl, origin_bucket_foldl, dest_bucket_foldl, zone_bucket_foldl,
      default_bucket_foldl]
    cases findLastMatch (odMatch origin dest) scs <;>
      cases findLastMatch (originMatch origin) scs <;>
        cases findLastMatch (destMatch dest) scs <;>
          cases findLastMatch (zoneMatch zone) scs <;>
            cases findLastMatch defaultMatch scs <;> rfl
  · intro idx timing zone h
    unfold check_feasibility
    rw [h]
    exact ⟨rfl, rfl, rfl⟩

/-- A dummy timing result used to instantiate feasibility statements. -/
def timingW : PathTimingResult :=
  { path := ⟨"O", "D", ["O", "D"], .DIRECT, .SORT_GROUP, 0, 0, 1⟩
    tit_hours := 10
    sort_window_dwell_hours := 0
    cpt_dwell_hours := 0
    total_dwell_hours := 0
    required_injection_utc := 0
    delivery_datetime_utc := 600
    sla_days := 0
    sla_buffer_days := 0
    sla_target_hours := (0 : ℚ)
    sla_met := false
    sla_slack_hours := (0 : ℚ)
    priority_weight := 1
    steps := [] }

/-- Witness for C8 at concrete inputs: a one-element commitment list and
the empty index (where the lookup misses). -/
theorem C8_witness :
    (get_commitment (build_commitment_index [⟨"A", "B", none, 2, 0, 1⟩]) "A" "B" 2 =
      get_commitment_spec [⟨"A", "B", none, 2, 0, 1⟩] "A" "B" 2) ∧
    ((check_feasibility emptyIndex timingW 1).sla_target_hours = ⊤ ∧
     (check_feasibility emptyIndex timingW 1).sla_met = true ∧
     (check_feasibility emptyIndex timingW 1).sla_slack_hours = ⊤) :=
  ⟨C8_commitment_lookup_priority_and_unconstrained_pass.1 [⟨"A", "B", none, 2, 0, 1⟩] "A" "B" 2,
   C8_commitment_lookup_priority_and_unconstrained_pass.2 emptyIndex timingW 1 rfl⟩

/-- C10: applying `check_feasibility` twice in succession yields exactly
the same SLA annotation as applying it once (the check only reads the
path's origin/dest, the zone and `tit_hours`, none of which it writes). -/
theorem C10_check_feasibility_idempotent (idx : CommitmentIndex)
    (timing : PathTimingResult) (zone : ℤ) :
    check_feasibility idx (check_feasibility idx timing zone) zone =
      check_feasibility idx timing zone := by
  unfold check_feasibility
  cases h : get_commitment idx timing.path.origin timing.path.dest zone <;> simp [h]

/-- C9: for a (year, day_type) whose demand row exists, building demand
parameters raises the flow-share validation error exactly when the three
selected shares sum to a value differing from 1.0 by more than 0.01; and
within tolerance it returns the parameters (`daily = annual ×
pct_of_annual`). -/
theorem C9_flow_share_validation (demand_df : List DemandRow) (year : ℤ)
    (day_type : String) (row : DemandRow)
    (h : (demand_df.filter (fun r => r.year = year)).head? = some row) :
    (get_demand_params demand_df year day_type =
        Except.error "Flow shares must sum to 1.0" ↔
      |(if day_type = "peak" then
          row.middle_mile_share_peak + row.zone_skip_share_peak +
            row.direct_injection_share_peak
        else
          row.middle_mile_share_offpeak + row.zone_skip_share_offpeak +
            row.direct_injection_share_offpeak) - 1| > 1/100) ∧
    (¬ |(if day_type = "peak" then
          row.middle_mile_share_peak + row.zone_skip_share_peak +
            row.direct_injection_share_peak
        else
          row.middle_mile_share_offpeak + row.zone_skip_share_offpeak +
            row.direct_injection_share_offpeak) - 1| > 1/100 →
      get_demand_params demand_df year day_type =
        Except.ok
          (if day_type = "peak" then
            ⟨row.annual_pkgs * row.peak_pct_of_annual, row.middle_mile_share_peak,
              row.zone_skip_share_peak, row.direct_injection_share_peak⟩
          else
            ⟨row.annual_pkgs * row.offpeak_pct_of_annual, row.middle_mile_share_offpeak,
              row.zone_skip_share_offpeak, row.direct_injection_share_offpeak⟩)) := by
  unfold get_demand_params
  rw [h]
  by_cases hd : day_type = "peak" <;>
    [simp only [hd, if_true]; simp only [hd, if_false]] <;>
    split_ifs <;> simp_all

/-- Witness for C9: a concrete demand table in both the failing and the
passing case. -/
theorem C9_witness :
    (get_demand_params
        [⟨2025, 1000000, 1/200, 1/250, 3/10, 3/10, 4/10, 1/2, 1/4, 1/4⟩]
        2025 "peak" =
      Except.error "Flow shares must sum to 1.0" ↔
        |((3:ℚ)/10 + 3/10 + 4/10) - 1| > 1/100) ∧
    (¬ |((3:ℚ)/10 + 3/10 + 4/10) - 1| > 1/100 →
      get_demand_params
          [⟨2025, 1000000, 1/200, 1/250, 3/10, 3/10, 4/10, 1/2, 1/4, 1/4⟩]
          2025 "peak" =
        Except.ok ⟨1000000 * (1/200), 3/10, 3/10, 4/10⟩) := by
  have := C9_flow_share_validation
    [⟨2025, 1000000, 1/200, 1/250, 3/10, 3/10, 4/10, 1/2, 1/4, 1/4⟩]
    2025 "peak" ⟨2025, 1000000, 1/200, 1/250, 3/10, 3/10, 4/10, 1/2, 1/4, 1/4⟩
    (by with_unfolding_all rfl)
  simpa using this

/-- C7 counterexample: with the contiguous sorted bands zone 1 = [0, 100]
and zone 2 = [100, 200], the distance 100 — which is band 2's lower bound
and band 1's (intermediate) upper bound — lands in band **1**: the loop
tests `band.mileage_band_min <= d <= band.mileage_band_max` with an
inclusive upper bound and returns the first match, contradicting both the
"lower bound lands in that band" and the "intermediate upper bound lands
in the next band" parts of the claim. -/
theorem C7_counterexample :
    get_zone_for_distance 100 [⟨1, 0, 100, 1, 50⟩, ⟨2, 100, 200, 1, 50⟩] =
      some ⟨1, 0, 100, 1, 50⟩ ∧
    (⟨1, 0, 100, 1, 50⟩ : MileageBand) ≠ ⟨2, 100, 200, 1, 50⟩ := by
  constructor
  · with_unfolding_all rfl
  · intro h
    exact absurd (congrArg MileageBand.zone h) (by decide)

/-- C7 amended: the lookup returns the **first** band containing `d` with
*both* bounds inclusive (so a distance at an intermediate band's upper
bound stays in that band, and a distance at a band's lower bound lands in
that band only when no earlier band also contains it), and any distance
beyond the last band's upper bound maps to the last band. -/
theorem C7_zone_lookup_amended :
    (∀ (pre post : List MileageBand) (b : MileageBand) (d : ℚ),
      (∀ x ∈ pre, ¬(x.mileage_band_min ≤ d ∧ d ≤ x.mileage_band_max)) →
      b.mileage_band_min ≤ d → d ≤ b.mileage_band_max →
      get_zone_for_distance d (pre ++ b :: post) = some b) ∧
    (∀ (bands : List MileageBand) (b : MileageBand) (d : ℚ),
      bands.getLast? = some b →
      (∀ x ∈ bands, ¬(x.mileage_band_min ≤ d ∧ d ≤ x.mileage_band_max)) →
      b.mileage_band_max < d →
      get_zone_for_distance d bands = some b) := by
  constructor
  · intro pre post b d hpre hb1 hb2
    unfold get_zone_for_distance
    rw [List.find?_append]
    have h1 : pre.find?
        (fun x => decide (x.mileage_band_min ≤ d ∧ d ≤ x.mileage_band_max)) = none := by
      rw [List.find?_eq_none]
      intro x hx
      simpa using hpre x hx
    have h2 : (b :: post).find?
        (fun x => decide (x.mileage_band_min ≤ d ∧ d ≤ x.mileage_band_max)) = some b := by
      rw [List.find?_cons_of_pos]
      simp [hb1, hb2]
    rw [h1, h2]
    rfl
  · intro bands b d hlast hnone hgt
    unfold get_zone_for_distance
    have h1 : bands.find?
        (fun x => decide (x.mileage_band_min ≤ d ∧ d ≤ x.mileage_band_max)) = none := by
      rw [List.find?_eq_none]
      intro x hx
      simpa using hnone x hx
    rw [h1, hlast]
    simp [hgt]

/-- Witness for C7 amended at concrete bands: 150 is contained only in the
second band (first-match clause), 500 is beyond the last band's upper
bound. -/
theorem C7_witness :
    get_zone_for_distance 150 ([⟨1, 0, 100, 1, 50⟩] ++ ⟨2, 100, 200, 1, 50⟩ :: []) =
      some ⟨2, 100, 200, 1, 50⟩ ∧
    get_zone_for_distance 500 [⟨1, 0, 100, 1, 50⟩, ⟨2, 100, 200, 1, 50⟩] =
      some ⟨2, 100, 200, 1, 50⟩ :=
  ⟨C7_zone_lookup_amended.1 [⟨1, 0, 100, 1, 50⟩] [] ⟨2, 100, 200, 1, 50⟩ 150
      (by intro x hx; simp at hx; subst hx; norm_num) (by norm_num) (by norm_num),
   C7_zone_lookup_amended.2 [⟨1, 0, 100, 1, 50⟩, ⟨2, 100, 200, 1, 50⟩]
      ⟨2, 100, 200, 1, 50⟩ 500 (by with_unfolding_all rfl)
      (by intro x hx; simp at hx; rcases hx with h | h <;> subst h <;> norm_num)
      (by norm_num)⟩

-- =======================================================================
-- Concrete facilities and engines used by the enumeration/timing claims
-- =======================================================================

/-- A facility with no windows, no hierarchy links, at (0, 0) in UTC. -/
def mkFacility (name : String) (ty : FacilityType) : Facility :=
  ⟨name, ty, 0, 0, UTC, none, none, true,
   none, none, none, none, none, none, none, none, none⟩

/-- Origin hub. -/
def facA : Facility := mkFacility "A" FacilityType.HUB

/-- Intermediate hub; also parent and regional sort hub of C. -/
def facB : Facility := mkFacility "B" FacilityType.HUB

/-- Destination launch: `parent_hub` and `regional_sort_hub` are B, no
last-mile window (so the delivery deadline defaults to 23:59). -/
def facC : Facility :=
  { mkFacility "C" FacilityType.LAUNCH with
    parent_hub_name := some "B", regional_sort_hub := some "B" }

/-- Destination launch with `lm_sort_end_local = 18:00` (and no window
start, so no LAST_MILE_SORT step is emitted either way). -/
def facC18 : Facility := { facC with lm_sort_end_local := some ⟨18, 0⟩ }

/-- The facility map `{A, B, C}`. -/
def facs0 : List (String × Facility) := [("A", facA), ("B", facB), ("C", facC)]

/-- The facility map with C's delivery deadline moved to 18:00. -/
def facs18 : List (String × Facility) := [("A", facA), ("B", facB), ("C", facC18)]

/-- Timing parameters: induction 60, crossdock 90, full sort 180, LM 45. -/
def params0 : TimingParams := ⟨60, 90, 180, 45⟩

/-- Engine over `facs0`, no mileage bands, no CPTs, reference date = epoch
day 0, and the zero distance function. -/
def engine0 : TimingEngine :=
  { facilities := facs0
    mileage_bands := []
    timing_params := params0
    cpt_generator := ⟨facs0, []⟩
    reference_date := 0
    hav := fun _ _ _ _ => 0 }

/-- Engine `engine0` with C's delivery deadline at 18:00 instead of 23:59. -/
def engineC1 : TimingEngine := { engine0 with facilities := facs18 }

/-- An explicit CPT on arc A→C at exactly 23:59 (the required departure
instant of the paths below). -/
def cptAC : CPT := ⟨"A", "C", 1, ⟨23, 59⟩, [], UTC⟩

/-- Engine `engine0` with the explicit CPT `cptAC` in the arc table. -/
def engineB : TimingEngine := { engine0 with cpt_generator := ⟨facs0, [cptAC]⟩ }

/-- Direct path A→C at SORT_GROUP level. -/
def pathAC : PathCandidate :=
  ⟨"A", "C", ["A", "C"], PathType.DIRECT, SortLevel.SORT_GROUP, 0, 0, 1⟩

/-- One-touch path A→B→C at REGION level (B is C's regional sort hub and
the second-to-last node). -/
def pathABC : PathCandidate :=
  ⟨"A", "C", ["A", "B", "C"], PathType.ONE_TOUCH, SortLevel.REGION, 0, 0, 1⟩

/-- Path enumerator over `facs0` with `max_path_touches = 1` (direct
only) and a permissive ATW bound. -/
def pe0 : PathEnumerator := ⟨facs0, 1, 10, fun _ _ _ _ => 0⟩

/-- C1: evaluating the cited backward-chaining engine at a concrete
direct path: moving only the destination's `lm_sort_end_local` from unset
(23:59 default) to 18:00 moves `required_injection_utc` from minute 1379
to minute 1020 of the reference day, and `delivery_datetime_utc` always
equals the destination-deadline anchor — `required_injection_utc` is
determined by the destination's delivery deadline, not by any fixed
injection instant (RunSettings in config.py has no
`reference_injection_time` field at all). -/
theorem C1_required_injection_tracks_destination_deadline :
    (calculate_path_timing engine0 pathAC).map (fun r => r.required_injection_utc) =
      some 1379 ∧
    (calculate_path_timing engineC1 pathAC).map (fun r => r.required_injection_utc) =
      some 1020 ∧
    (calculate_path_timing engine0 pathAC).map (fun r => r.delivery_datetime_utc) =
      some 1439 ∧
    (calculate_path_timing engineC1 pathAC).map (fun r => r.delivery_datetime_utc) =
      some 1080 ∧
    engine0.facilities.lookup "A" = engineC1.facilities.lookup "A" ∧
    engine0.reference_date = engineC1.reference_date ∧
    engine0.timing_params = engineC1.timing_params ∧
    (1379 : ℚ) ≠ 1020 := by
  refine ⟨?_, ?_, ?_, ?_, ?_, rfl, rfl, by norm_num⟩ <;> with_unfolding_all rfl

/-- The full timing result of `engine0` (and, identically, `engineB`) on
the direct SORT_GROUP path A→C. -/
def resultAC : PathTimingResult :=
  { path := pathAC
    tit_hours := 1
    sort_window_dwell_hours := 0
    cpt_dwell_hours := 0
    total_dwell_hours := 0
    required_injection_utc := 1379
    delivery_datetime_utc := 1439
    sla_days := 0
    sla_buffer_days := 0
    sla_target_hours := (0 : ℚ)
    sla_met := false
    sla_slack_hours := (0 : ℚ)
    priority_weight := 1
    steps :=
      [{ step_sequence := 1
         step_type := StepType.INDUCTION_SORT
         from_facility := some "A"
         to_facility := some "A"
         from_lat := some 0
         from_lon := some 0
         to_lat := some 0
         to_lon := some 0
         distance_miles := some 0
         start_utc := 1379
         end_utc := 1439
         duration_minutes := 60
         sort_window_dwell_minutes := 0
         cpt_dwell_minutes := 0
         total_dwell_minutes := 0 },
       { step_sequence := 2
         step_type := StepType.TRANSIT
         from_facility := some "A"
         to_facility := some "C"
         from_lat := some 0
         from_lon := some 0
         to_lat := some 0
         to_lon := some 0
         distance_miles := some 0
         start_utc := 1439
         end_utc := 1439
         duration_minutes := 0
         sort_window_dwell_minutes := 0
         cpt_dwell_minutes := 0
         total_dwell_minutes := 0 }] }

/-- C3: an engine whose A→C arc has **no** CPTs and one whose A→C arc has
an (explicit) CPT at exactly the required departure instant produce
**identical** `PathTimingResult`s — so no component of the result records
whether a CPT lookup missed, refuting any `uses_only_active_arcs`
annotation (the dataclasses in config.py have no `is_active` /
`uses_only_active_arcs` fields; `_find_latest_cpt` returns the plain pair
`(required_by_utc, 0.0)` on a miss). -/
theorem C3_no_activity_flag_recorded :
    calculate_path_timing engine0 pathAC = some resultAC ∧
    calculate_path_timing engineB pathAC = some resultAC ∧
    get_cpts_for_arc engine0.cpt_generator "A" "C" = [] ∧
    get_cpts_for_arc engineB.cpt_generator "A" "C" =
      [⟨"A", "C", 1, ⟨23, 59⟩, [], UTC⟩] := by
  refine ⟨?_, ?_, ?_, ?_⟩ <;> with_unfolding_all rfl

/-- C4 counterexample: on the REGION-level path A→B→C, whose second-to-last
node B is C's regional sort hub, the processing step emitted at B is
CROSSDOCK with `middle_mile_crossdock_minutes` (90), not FULL_SORT with
`middle_mile_sort_minutes` (180) as the claim requires. -/
theorem C4_counterexample :
    pathABC.sort_level = SortLevel.REGION ∧
    pathABC.path_nodes = ["A", "B", "C"] ∧
    (calculate_path_timing engine0 pathABC).map
        (fun r => r.steps.map (fun s => (s.step_type, s.duration_minutes))) =
      some [(StepType.INDUCTION_SORT, 60), (StepType.TRANSIT, 0),
            (StepType.CROSSDOCK, 90), (StepType.TRANSIT, 0)] ∧
    params0.middle_mile_crossdock_minutes = 90 ∧
    params0.middle_mile_sort_minutes = 180 ∧
    StepType.CROSSDOCK ≠ StepType.FULL_SORT := by
  refine ⟨rfl, rfl, ?_, rfl, rfl, by decide⟩
  with_unfolding_all rfl

/-- C4 amended: `_calculate_intermediate_processing` emits CROSSDOCK with
`middle_mile_crossdock_minutes` **iff the path's sort level is REGION**,
and otherwise FULL_SORT with `middle_mile_sort_minutes` — at every
intermediate node, with no dependence on the node's position in the
path. -/
theorem C4_intermediate_processing_amended (e : TimingEngine) (facility : Facility)
    (sort_level : SortLevel) (t : DateTime) :
    ∃ step, calculate_intermediate_processing e facility sort_level t = some step ∧
      step.step_type =
        (if sort_level = SortLevel.REGION then StepType.CROSSDOCK
         else StepType.FULL_SORT) ∧
      step.duration_minutes =
        (if sort_level = SortLevel.REGION then
          e.timing_params.middle_mile_crossdock_minutes
         else e.timing_params.middle_mile_sort_minutes) := by
  cases sort_level <;>
    exact ⟨_, rfl, by simp [calculate_intermediate_processing], by
      simp [calculate_intermediate_processing]⟩

-- =======================================================================
-- C2: zone-skip demand
-- =======================================================================

/-- A regional sort hub. -/
def facH : Facility := mkFacility "H" FacilityType.HUB

/-- A delivery facility whose `regional_sort_hub` is H. -/
def facD : Facility :=
  { mkFacility "D" FacilityType.LAUNCH with regional_sort_hub := some "H" }

/-- The facility map `{H, D}`. -/
def facsD : List (String × Facility) := [("H", facH), ("D", facD)]

/-- C2: on a scenario with positive zone-skip share (zs = 1/5 of 1000
daily packages) and a destination D with `regional_sort_hub = H` and
destination share 1, `_build_od_matrix` does not emit a ZONE_SKIP demand
but raises `AttributeError`: it references `FlowType.ZONE_SKIP`, yet the
`FlowType` enum in config.py defines only DIRECT_INJECTION and
MIDDLE_MILE. -/
theorem C2_zone_skip_member_missing :
    build_od_matrix facsD (fun _ _ _ _ => 0) [] [("D", 1)] [] "s1"
        ⟨1000, 4/5, 1/5, 0⟩ "peak" =
      Except.error "AttributeError: type object FlowType has no attribute ZONE_SKIP" ∧
    FlowType.fromName "ZONE_SKIP" = none ∧
    FlowType.fromName "DIRECT_INJECTION" = some FlowType.DIRECT_INJECTION ∧
    FlowType.fromName "MIDDLE_MILE" = some FlowType.MIDDLE_MILE ∧
    facilityToRegionalHub facsD "D" = some "H" := by
  refine ⟨?_, ?_, ?_, ?_, ?_⟩ <;> with_unfolding_all rfl

-- =======================================================================
-- C5 / C6: sort-level expansion and path structure
-- =======================================================================

lemma expand_spec (pe : PathEnumerator) (pn : List String) (o d : String)
    (dm : ℚ) (cands : List PathCandidate)
    (h : expand_path_to_candidates pe pn o d dm = some cands) :
    cands.map (fun c => c.sort_level) =
      [SortLevel.REGION, SortLevel.MARKET, SortLevel.SORT_GROUP] ∧
    ∀ c ∈ cands, c.path_nodes = pn ∧ c.origin = o ∧ c.dest = d := by
  unfold expand_path_to_candidates at h
  obtain ⟨td, htd, hc⟩ := Option.bind_eq_some.mp h
  simp only [Option.pure_def, Option.some.injEq] at hc
  subst hc
  simp [SortLevel.all, is_sort_level_valid]

/-- C5 counterexample: with `max_path_touches = 1` the only node sequence
is the direct `["A", "C"]` (length 2, and its second-to-last node A is not
C's regional sort hub B), yet the enumerator emits a REGION variant for
it — sort levels are not restricted to sequences through the regional
sort hub. -/
theorem C5_counterexample :
    (enumerate_paths_for_od pe0 "A" "C").map
        (fun cs => cs.map (fun c => (c.path_nodes, c.sort_level))) =
      some [(["A", "C"], SortLevel.REGION), (["A", "C"], SortLevel.MARKET),
            (["A", "C"], SortLevel.SORT_GROUP)] ∧
    facilityToRegionalHub pe0.facilities "C" = some "B" ∧
    (["A", "C"] : List String).length = 2 := by
  refine ⟨?_, ?_, rfl⟩ <;> with_unfolding_all rfl

/-- C5 amended: `_is_sort_level_valid` is constantly true, so **every**
node sequence — direct or not, whatever its second-to-last node — is
expanded into exactly one variant per sort level, in enum order
[REGION, MARKET, SORT_GROUP]. -/
theorem C5_every_sequence_gets_all_sort_levels :
    (∀ (pn : List String) (sl : SortLevel), is_sort_level_valid pn sl = true) ∧
    (∀ (pe : PathEnumerator) (pn : List String) (o d : String) (dm : ℚ)
       (cands : List PathCandidate),
      expand_path_to_candidates pe pn o d dm = some cands →
        cands.map (fun c => c.sort_level) =
          [SortLevel.REGION, SortLevel.MARKET, SortLevel.SORT_GROUP] ∧
        ∀ c ∈ cands, c.path_nodes = pn ∧ c.origin = o ∧ c.dest = d) :=
  ⟨fun _ _ => rfl, fun pe pn o d dm cands h => expand_spec pe pn o d dm cands h⟩

/-- The expansion of the direct sequence A→C under `pe0`. -/
def candsAC : List PathCandidate :=
  [⟨"A", "C", ["A", "C"], PathType.DIRECT, SortLevel.REGION, 0, 0, 1⟩,
   ⟨"A", "C", ["A", "C"], PathType.DIRECT, SortLevel.MARKET, 0, 0, 1⟩,
   ⟨"A", "C", ["A", "C"], PathType.DIRECT, SortLevel.SORT_GROUP, 0, 0, 1⟩]

/-- Witness for C5 amended at the concrete direct sequence A→C. -/
theorem C5_witness :
    candsAC.map (fun c => c.sort_level) =
      [SortLevel.REGION, SortLevel.MARKET, SortLevel.SORT_GROUP] ∧
    ∀ c ∈ candsAC, c.path_nodes = ["A", "C"] ∧ c.origin = "A" ∧ c.dest = "C" :=
  C5_every_sequence_gets_all_sort_levels.2 pe0 ["A", "C"] "A" "C" 0 candsAC
    (by with_unfolding_all rfl)

lemma mapM_option_mem {α β : Type} (f : α → Option β) :
    ∀ {l : List α} {l' : List β}, l.mapM f = some l' →
      ∀ b ∈ l', ∃ a ∈ l, f a = some b := by
  intro l
  induction l with
  | nil =>
    intro l' h b hb
    simp only [List.mapM_nil, Option.pure_def, Option.some.injEq] at h
    subst h
    simp at hb
  | cons a t ih =>
    intro l' h b hb
    rw [List.mapM_cons] at h
    obtain ⟨x, hx, h2⟩ := Option.bind_eq_some.mp h
    obtain ⟨xs, hxs, h3⟩ := Option.bind_eq_some.mp h2
    simp only [Option.pure_def, Option.some.injEq] at h3
    subst h3
    rcases List.mem_cons.mp hb with hb | hb
    · exact ⟨a, List.mem_cons_self a t, hb ▸ hx⟩
    · obtain ⟨a', ha', hfa'⟩ := ih hxs b hb
      exact ⟨a', List.mem_cons_of_mem a ha', hfa'⟩

lemma raw_paths_mem (pe : PathEnumerator) (o d : String) (pn : List String)
    (h : pn ∈ enumerate_raw_paths pe o d) :
    pn = [o, d] ∨
    (is_valid_path_structure pe.facilities pn = true ∧
     pn.head? = some o ∧ pn.getLast? = some d) := by
  unfold enumerate_raw_paths at h
  simp only [List.mem_append] at h
  rcases h with ((h | h) | h) | h
  · left
    simpa using h
  all_goals right
  · by_cases hc : pe.max_path_touches ≥ 2
    · rw [if_pos hc] at h
      rw [List.mem_filter] at h
      obtain ⟨hmem, hvalid⟩ := h
      obtain ⟨h1, _, rfl⟩ := List.mem_map.mp hmem
      exact ⟨hvalid, rfl, rfl⟩
    · rw [if_neg hc] at h
      simp at h
  · by_cases hc : pe.max_path_touches ≥ 3
    · rw [if_pos hc] at h
      rw [List.mem_filter] at h
      obtain ⟨hmem, hvalid⟩ := h
      simp only [List.mem_flatMap, List.mem_map] at hmem
      obtain ⟨h1, _, h2, _, rfl⟩ := hmem
      exact ⟨hvalid, rfl, rfl⟩
    · rw [if_neg hc] at h
      simp at h
  · by_cases hc : pe.max_path_touches ≥ 4
    · rw [if_pos hc] at h
      rw [List.mem_filter] at h
      obtain ⟨hmem, hvalid⟩ := h
      simp only [List.mem_flatMap, List.mem_map] at hmem
      obtain ⟨h1, _, h2, _, h3, _, rfl⟩ := hmem
      exact ⟨hvalid, rfl, rfl⟩
    · rw [if_neg hc] at h
      simp at h

lemma is_valid_unpack (facs : List (String × Facility)) (pn : List String)
    (o d : String) (hh : pn.head? = some o) (hl : pn.getLast? = some d)
    (h : is_valid_path_structure facs pn = true) :
    (∃ f, facs.lookup o = some f ∧
      (f.facility_type = FacilityType.HUB ∨ f.facility_type = FacilityType.HYBRID)) ∧
    (∃ f, facs.lookup d = some f ∧
      (f.facility_type = FacilityType.LAUNCH ∨ f.facility_type = FacilityType.HYBRID)) ∧
    (∀ n ∈ (pn.drop 1).dropLast, ∃ f, facs.lookup n = some f ∧
      (f.facility_type = FacilityType.HUB ∨ f.facility_type = FacilityType.HYBRID)) ∧
    (∀ parent, parentHubMap facs d = some parent → o ≠ parent →
       parentHubMap facs o ≠ some parent → parent ∈ pn) := by
  unfold is_valid_path_structure at h
  rw [hh, hl] at h
  split at h
  · simp at h
  split at h
  case h_2 hne => exact (hne o d rfl rfl).elim
  case h_1 oname dname hfo hfd =>
  injection hfo with hfo
  injection hfd with hfd
  subst hfo
  subst hfd
  split at h
  case h_2 hne => simp at h
  case h_1 of df hof hdf =>
  split at h
  case isTrue => simp at h
  case isFalse hA =>
  split at h
  case isTrue => simp at h
  case isFalse hB =>
  split at h
  case isTrue => simp at h
  case isFalse hC =>
  have hAll := not_not.mp hC
  refine ⟨⟨of, hof, not_not.mp hA⟩, ⟨df, hdf, not_not.mp hB⟩, ?_, ?_⟩
  · intro n hn
    have := List.all_eq_true.mp hAll n hn
    cases hfn : List.lookup n facs with
    | none => rw [hfn] at this; simp at this
    | some f =>
      rw [hfn] at this
      exact ⟨f, rfl, of_decide_eq_true this⟩
  · intro parent hp hop hopp
    split at h
    case h_2 hnone => rw [hp] at hnone; simp at hnone
    case h_1 parent' hsome =>
    rw [hp] at hsome
    injection hsome with hsome
    subst hsome
    split at h
    case isTrue => exact of_decide_eq_true h
    case isFalse hcond =>
    exact absurd (And.intro hop hopp) hcond

/-- C6 counterexample: C's `parent_hub` is B, A neither is B nor has B as
parent, yet the direct candidate `["A", "C"]` is emitted (it is appended
before any `_is_valid_path_structure` check) and does not pass through
B. -/
theorem C6_counterexample :
    (enumerate_paths_for_od pe0 "A" "C").map
        (fun cs => cs.map (fun c => c.path_nodes)) =
      some [["A", "C"], ["A", "C"], ["A", "C"]] ∧
    parentHubMap pe0.facilities "C" = some "B" ∧
    ("A" : String) ≠ "B" ∧
    parentHubMap pe0.facilities "A" = none ∧
    ¬ (("B" : String) ∈ (["A", "C"] : List String)) := by
  refine ⟨?_, ?_, by decide, ?_, by decide⟩ <;> with_unfolding_all rfl

/-- C6 amended: every candidate with at least one intermediate node (more
than two nodes) satisfies the structural rules — origin HUB/HYBRID,
destination LAUNCH/HYBRID, intermediates HUB/HYBRID, and the parent-hub
rule; the direct two-node candidate is emitted without these checks. -/
theorem C6_nondirect_candidates_satisfy_structure (pe : PathEnumerator)
    (o d : String) (cands : List PathCandidate)
    (h : enumerate_paths_for_od pe o d = some cands) :
    ∀ c ∈ cands, 2 < c.path_nodes.length →
      is_valid_path_structure pe.facilities c.path_nodes = true ∧
      c.path_nodes.head? = some o ∧
      c.path_nodes.getLast? = some d ∧
      (∃ f, pe.facilities.lookup o = some f ∧
        (f.facility_type = FacilityType.HUB ∨ f.facility_type = FacilityType.HYBRID)) ∧
      (∃ f, pe.facilities.lookup d = some f ∧
        (f.facility_type = FacilityType.LAUNCH ∨ f.facility_type = FacilityType.HYBRID)) ∧
      (∀ n ∈ (c.path_nodes.drop 1).dropLast, ∃ f, pe.facilities.lookup n = some f ∧
        (f.facility_type = FacilityType.HUB ∨ f.facility_type = FacilityType.HYBRID)) ∧
      (∀ parent, parentHubMap pe.facilities d = some parent → o ≠ parent →
        parentHubMap pe.facilities o ≠ some parent → parent ∈ c.path_nodes) := by
  unfold enumerate_paths_for_od at h
  obtain ⟨origin_fac, hof, h⟩ := Option.bind_eq_some.mp h
  obtain ⟨dest_fac, hdf, h⟩ := Option.bind_eq_some.mp h
  obtain ⟨expanded, hexp, h⟩ := Option.bind_eq_some.mp h
  simp only [Option.pure_def, Option.some.injEq] at h
  subst h
  intro c hc hlen
  rw [List.mem_filter] at hc
  obtain ⟨hcf, _hatw⟩ := hc
  rw [List.mem_flatten] at hcf
  obtain ⟨sub, hsub, hcsub⟩ := hcf
  obtain ⟨pn, hpn, hfpn⟩ := mapM_option_mem _ hexp sub hsub
  have hspec := expand_spec pe pn o d _ sub hfpn
  have hnodes := (hspec.2 c hcsub).1
  rcases raw_paths_mem pe o d pn hpn with hdir | ⟨hvalid, hhead, hlast⟩
  · rw [hnodes, hdir] at hlen
    simp at hlen
  · have hun := is_valid_unpack pe.facilities pn o d hhead hlast hvalid
    rw [hnodes]
    exact ⟨hvalid, hhead, hlast, hun.1, hun.2.1, hun.2.2.1, hun.2.2.2⟩

/-- Path enumerator over `facs0` allowing one intermediate touch. -/
def pe1 : PathEnumerator := ⟨facs0, 2, 10, fun _ _ _ _ => 0⟩

/-- The six candidates `pe1` produces for A→C (three sort levels for the
direct sequence and three for A→B→C). -/
def candsAC6 : List PathCandidate :=
  [⟨"A", "C", ["A", "C"], PathType.DIRECT, SortLevel.REGION, 0, 0, 1⟩,
   ⟨"A", "C", ["A", "C"], PathType.DIRECT, SortLevel.MARKET, 0, 0, 1⟩,
   ⟨"A", "C", ["A", "C"], PathType.DIRECT, SortLevel.SORT_GROUP, 0, 0, 1⟩,
   ⟨"A", "C", ["A", "B", "C"], PathType.ONE_TOUCH, SortLevel.REGION, 0, 0, 1⟩,
   ⟨"A", "C", ["A", "B", "C"], PathType.ONE_TOUCH, SortLevel.MARKET, 0, 0, 1⟩,
   ⟨"A", "C", ["A", "B", "C"], PathType.ONE_TOUCH, SortLevel.SORT_GROUP, 0, 0, 1⟩]

/-- The one-touch REGION candidate through B. -/
def candABC : PathCandidate :=
  ⟨"A", "C", ["A", "B", "C"], PathType.ONE_TOUCH, SortLevel.REGION, 0, 0, 1⟩

/-- Witness for C6 amended: the one-touch candidate A→B→C of `pe1`
satisfies every structural rule. -/
theorem C6_witness :
    is_valid_path_structure pe1.facilities candABC.path_nodes = true ∧
    candABC.path_nodes.head? = some "A" ∧
    candABC.path_nodes.getLast? = some "C" ∧
    (∃ f, pe1.facilities.lookup "A" = some f ∧
      (f.facility_type = FacilityType.HUB ∨ f.facility_type = FacilityType.HYBRID)) ∧
    (∃ f, pe1.facilities.lookup "C" = some f ∧
      (f.facility_type = FacilityType.LAUNCH ∨ f.facility_type = FacilityType.HYBRID)) ∧
    (∀ n ∈ (candABC.path_nodes.drop 1).dropLast, ∃ f, pe1.facilities.lookup n = some f ∧
      (f.facility_type = FacilityType.HUB ∨ f.facility_type = FacilityType.HYBRID)) ∧
    (∀ parent, parentHubMap pe1.facilities "C" = some parent → "A" ≠ parent →
      parentHubMap pe1.facilities "A" ≠ some parent → parent ∈ candABC.path_nodes) :=
  C6_nondirect_candidates_satisfy_structure pe1 "A" "C" candsAC6
    (by with_unfolding_all rfl) candABC (by with_unfolding_all decide)
    (by with_unfolding_all decide)

end SlaPathModel
